import Mathlib

/-!
Verification development for the yagr tooltip plugin core
(`src/plugins/tooltip/tooltip.ts` in the repository; provided as
`src/unnamed/part_000`).

The TypeScript source is embedded shallowly:

* JavaScript runtime values that flow through the tooltip pipeline are
  modelled by `Val` (numbers as `Int`, strings, `null`, `undefined`);
  strict equality `===` is `Val` equality.
* DOM side effects are reduced to the observable bits the spec talks
  about: the overlay display flag, the emitted state-change notification
  log, the pending deferred-render closure (identified by the row list it
  is bound to) and a log of executed renders.
* Functions `findSticky`, `findInRange` and `findDataIdx` live in
  `utils/common`, which is not among the provided sources; they are
  modelled from the spec (marked in their doc comments).
* Exceptions thrown by the source are modelled with `Except`.
-/

namespace YagrTooltip

/-- A JavaScript value as it flows through the tooltip pipeline.
Numbers are modelled as `Int` (no claim depends on fractional values). -/
inductive Val where
  | num (n : Int)
  | str (s : String)
  | null
  | undef
deriving DecidableEq, Repr

/-- `TooltipAction` from the source (the `show` tag is spelled `show_`
because `show` is a Lean keyword). -/
inductive TooltipAction where
  | init
  | mount
  | render
  | show_
  | hide
  | pin
  | unpin
  | destroy
deriving DecidableEq, Repr

/-- `TooltipRow`: one per-series display row, rebuilt on every cursor
update (source lines 485-497). -/
structure TooltipRow where
  name : String
  originalValue : Val
  value : String
  y : Val
  color : String
  active : Bool := false
  normalized : Option Val := none
deriving DecidableEq, Repr

/-- The relevant fields of a uPlot `Series` as the tooltip reads them.
`show` is spelled `shw` (Lean keyword).  `showInTooltip` is only ever
compared with `=== false` / `!== false` in the source, so the JS values
`true` and `undefined` collapse to `true`.  `c` is the `$c`
display-source array; `some` corresponds to `Array.isArray($c)`.
The source passes the series itself as second argument to `formatter`;
the callback can close over its series, so that argument is elided. -/
structure Serie where
  name : String
  color : String
  shw : Bool
  showInTooltip : Bool := true
  precision : Option Nat := none
  formatter : Option (Val → String) := none
  c : Option (List Val) := none
  normalizedData : Option (List Val) := none

/-- `TrackingOptions` (`tracking` config): `Sticky`, `Area` or disabled. -/
inductive TrackingOptions where
  | sticky
  | area
  | none
deriving DecidableEq, Repr

/-- Snap-to-value policy; the spec defines only `Closest` (plus the
disabled states handled by `SnapCfg`). -/
inductive SnapToValue where
  | closest
deriving DecidableEq, Repr

/-- The `cursor.snapToValues` configuration slot: absent (`undefined`),
explicit `false`, or a policy value. -/
inductive SnapCfg where
  | unset
  | off
  | val (v : SnapToValue)
deriving DecidableEq, Repr

/-- The part of `CursorOptions` the tooltip reads. -/
structure CursorOptions where
  snapToValues : SnapCfg := SnapCfg.unset
deriving DecidableEq, Repr

/-- The part of `yagr.config.settings` the tooltip reads.
`interpolationValue` may be absent in JS; absence is `Val.undef`.
(`nullValues` is only consulted by the default string formatter, whose
text output is outside this model.) -/
structure YagrSettings where
  interpolationValue : Val := Val.undef
deriving DecidableEq, Repr

/-- `TooltipOptions` after the `Object.assign` defaulting (source lines
235-248).  The pluggable `render` function is modelled by the render log
of the state; `value` is the pluggable value formatter (its text output
is opaque to every claim). -/
structure TooltipOptions where
  tracking : TrackingOptions := TrackingOptions.sticky
  maxLines : Nat := 10
  highlightLines : Bool := true
  total : Bool := true
  renderAll : Bool := false
  pinable : Bool := true
  value : Val → Option Nat → String := fun _ _ => ""
  sort : Option (TooltipRow → TooltipRow → Int) := none
  showIndicies : Bool := false
  hideNoData : Bool := false

/-- The defaulted options record with every pluggable function left at
its neutral stand-in. -/
def defaultOpts : TooltipOptions := {}

/-- Resolution of `cursor.snapToValues === false ? false :
cursor.snapToValues || SnapToValue.Closest` (source lines 190-192):
`none` is disabled, `undefined` defaults to `Closest`. -/
def snapResolve : SnapCfg → Option SnapToValue
  | SnapCfg.off => Option.none
  | SnapCfg.unset => some SnapToValue.closest
  | SnapCfg.val v => some v

/-- Distance between two list indices. -/
def idxDist (j i : Nat) : Nat := ((j : Int) - (i : Int)).natAbs

/-- Modelled from the spec: `findDataIdx` is defined in `utils/common`,
which is not among the provided sources.  Spec section 4.1: if the snap
policy is disabled the gap index itself is kept (the caller reads the
gap marker back); otherwise (`Closest`) search outward from `idx` in
both directions for the nearest index whose value is not the gap marker,
ties resolving to the smaller index; if no non-gap value exists the
original index is kept. -/
def findDataIdx (source : List Val) (idx : Nat) (snapTo : Option SnapToValue)
    (stripValue : Val) : Nat :=
  match snapTo with
  | Option.none => idx
  | some _ =>
    let cands := (List.range source.length).filter
      (fun j => decide (source.getD j Val.undef ≠ stripValue))
    match cands.foldl (fun best j =>
      match best with
      | Option.none => some j
      | some b => if idxDist j idx < idxDist b idx then some j else some b)
      Option.none with
    | Option.none => idx
    | some j => j

/-- JS default-parameter semantics for `stripValue: unknown = null`: an
`undefined` argument selects the declared default `null`. -/
def jsDefaultStrip (stripArg : Val) : Val :=
  if stripArg = Val.undef then Val.null else stripArg

/-- The display-source selection `Array.isArray(serie.$c) ? serie.$c :
data` (source line 188). -/
def displaySource (serie : Serie) (data : List Val) : List Val :=
  match serie.c with
  | some c => c
  | Option.none => data

/-- `findValue` (source lines 187-202): read the value at `idx` from the
display source; if it is the gap marker, snap to the nearest non-gap
index (policy permitting) and read there. -/
def findValue (cursor : CursorOptions) (data : List Val) (serie : Serie)
    (idx : Nat) (stripArg : Val := Val.undef) : Val :=
  let stripValue := jsDefaultStrip stripArg
  let source := displaySource serie data
  let snapTo := snapResolve cursor.snapToValues
  let value := source.getD idx Val.undef
  if value = stripValue then
    let nonNullIdx := findDataIdx source idx snapTo stripValue
    source.getD nonNullIdx Val.undef
  else
    value

/-- `value || 0` for the running total (source line 468): at this point
`value` is a number, `null` or `undefined`; every non-number contributes
zero. -/
def jsNumOr0 : Val → Int
  | Val.num n => n
  | _ => 0

/-- Accumulator of the `while` loop of `setCursor` (source lines
444-499): emitted rows, the `rowYs` list fed to active-row selection,
the `ys` bookkeeping list, the running `sum` and the loop counter `i`. -/
structure BuildRes where
  rows : List TooltipRow
  rowYs : List Val
  ys : List Val
  sum : Int
  i : Nat
deriving Repr

/-- One-for-one embedding of the `while (i < u.series.length)` loop of
`setCursor` (source lines 450-499), recursing over the series paired
with their data rows (uPlot keeps `u.series` and `u.data` aligned). -/
def buildLoop (opts : TooltipOptions) (interpolationValue : Val)
    (cursor : CursorOptions) (idx : Nat)
    (pairs : List (Serie × List Val)) (acc : BuildRes) : BuildRes :=
  match pairs with
  | [] => acc
  | (serie, dataRow) :: rest =>
    if ¬ serie.shw then
      buildLoop opts interpolationValue cursor idx rest { acc with i := acc.i + 1 }
    else
      let stripValue := interpolationValue
      let value0 := findValue cursor dataRow serie idx stripValue
      let dValue := value0
      let value := match value0 with
        | Val.str _ => Val.null
        | v => v
      let sum := if opts.total then acc.sum + jsNumOr0 value else acc.sum
      let realY := dataRow.getD idx Val.undef
      let yValue := match serie.c with
        | some c => if c.getD idx Val.undef = stripValue then value else realY
        | Option.none => realY
      let ys := acc.ys ++ [yValue]
      let i := acc.i + 1
      if (value = Val.null ∧ opts.hideNoData) ∨ serie.showInTooltip = false then
        buildLoop opts interpolationValue cursor idx rest
          { acc with ys := ys, sum := sum, i := i }
      else
        let displayValue := match serie.formatter with
          | some f => f dValue
          | Option.none => opts.value dValue serie.precision
        let rowData : TooltipRow := {
          name := serie.name
          originalValue := value
          value := displayValue
          y := yValue
          color := serie.color
          normalized := serie.normalizedData.map (fun nd => nd.getD idx Val.undef) }
        buildLoop opts interpolationValue cursor idx rest
          { acc with
            rows := acc.rows ++ [rowData]
            rowYs := acc.rowYs ++ [realY]
            ys := ys
            sum := sum
            i := i }

/-- The full row-building pass of `setCursor` for data index `idx`:
the loop starts at `i = 1` (the implicit x series is skipped) with empty
accumulators. -/
def buildRows (opts : TooltipOptions) (ySettings : YagrSettings)
    (cursor : CursorOptions) (series : List Serie) (data : List (List Val))
    (idx : Nat) : BuildRes :=
  buildLoop opts ySettings.interpolationValue cursor idx
    ((series.drop 1).zip (data.drop 1)) ⟨[], [], [], 0, 1⟩

/-- Modelled from the spec: `findSticky` is defined in `utils/common`,
which is not among the provided sources.  Spec section 4.2, Sticky:
choose the row whose numeric y-equivalent is closest to the cursor
value; ties resolve to the lowest index; no choice when no entry is
numeric. -/
def findSticky (rowYs : List Val) (cursorValue : Int) : Option Nat :=
  ((List.range rowYs.length).foldl (fun best j =>
    match rowYs.getD j Val.undef with
    | Val.num y =>
      match best with
      | Option.none => some (j, (y - cursorValue).natAbs)
      | some (bj, bd) =>
        if (y - cursorValue).natAbs < bd then some (j, (y - cursorValue).natAbs)
        else some (bj, bd)
    | _ => best) Option.none).map Prod.fst

/-- Modelled from the spec: `findInRange` is defined in `utils/common`,
which is not among the provided sources.  Spec section 4.2, Area: scan
ascending; the first row whose value together with the value of the next row
delimits a band containing the cursor value wins; none otherwise.  The
third boolean argument of the source call site is not described by the
spec and is ignored. -/
def findInRange (rowYs : List Val) (cursorValue : Int) (_sticky : Bool) :
    Option Nat :=
  (List.range rowYs.length).findSome? (fun j =>
    match rowYs.getD j Val.undef, rowYs.getD (j + 1) Val.undef with
    | Val.num a, Val.num b =>
      if a ≤ cursorValue ∧ cursorValue < b then some j else Option.none
    | _, _ => Option.none)

/-- The `opts.highlightLines` block of `setCursor` (source lines
508-520).  With tracking disabled the initializer `activeIndex = i - 1`
survives; `rows[activeIndex].active = true` on an out-of-range index is
the JS write through `undefined`, i.e. a thrown `TypeError`, modelled by
`Except.error`. -/
def applyHighlight (opts : TooltipOptions) (br : BuildRes)
    (cursorValue : Int) : Except String (List TooltipRow) :=
  if opts.highlightLines then
    let activeIndex : Option Nat :=
      match opts.tracking with
      | TrackingOptions.area => findInRange br.rowYs cursorValue false
      | TrackingOptions.sticky => findSticky br.rowYs cursorValue
      | TrackingOptions.none => some (br.i - 1)
    match activeIndex with
    | Option.none => Except.ok br.rows
    | some ai =>
      if h : ai < br.rows.length then
        Except.ok (br.rows.set ai { br.rows.get ⟨ai, h⟩ with active := true })
      else
        Except.error "TypeError: cannot set properties of undefined"
  else
    Except.ok br.rows

/-- Stable insertion into a sorted list, keyed by a JS comparator:
earlier elements stay in front of later ones unless strictly smaller. -/
def insertByCmp {α : Type} (cmp : α → α → Int) (r : α) :
    List α → List α
  | [] => [r]
  | x :: xs => if cmp x r < 0 then x :: insertByCmp cmp r xs else r :: x :: xs

/-- Stable comparator sort, the model of `Array.prototype.sort` (stable
since ES2019) used by `rows.sort(opts.sort)`. -/
def sortByCmp {α : Type} (cmp : α → α → Int) : List α → List α
  | [] => []
  | x :: xs => insertByCmp cmp x (sortByCmp cmp xs)

/-- `if (opts.sort) rows.sort(opts.sort)` (source lines 522-524). -/
def jsSortRows (cmp : Option (TooltipRow → TooltipRow → Int))
    (rows : List TooltipRow) : List TooltipRow :=
  match cmp with
  | Option.none => rows
  | some c => sortByCmp c rows

/-- The observable tooltip state: the `TooltipState` record of the
source plus the DOM effects the spec talks about, namely the overlay
display (`true` = `block`, `false` = `none`), the log of emitted
state-change notifications, the pending deferred-render closure
(`renderTooltipCloses`, identified by the row list it is bound to;
`none` is the initial no-op closure) and the log of executed renders. -/
structure TSt where
  pinned : Bool
  clickStartedX : Option Int
  visible : Bool
  mounted : Bool
  display : Bool
  emitted : List TooltipAction
  pending : Option (List TooltipRow)
  renders : List (List TooltipRow)
deriving DecidableEq, Repr

/-- State after plugin construction (source lines 261-284): the state
literal, `emit(init)`, overlay attached, `mounted = true`,
`emit(mount)`. -/
def initState : TSt :=
  { pinned := false
    clickStartedX := none
    visible := false
    mounted := true
    display := false
    emitted := [TooltipAction.init, TooltipAction.mount]
    pending := none
    renders := [] }

/-- `show()` (source lines 286-291): remember the pre-call visibility,
set `visible`, show the overlay, and emit `show` only on the
false-to-true edge. -/
def showOp (s : TSt) : TSt :=
  let shouldEmit := ! s.visible
  { s with
    visible := true
    display := true
    emitted := s.emitted ++ (if shouldEmit then [TooltipAction.show_] else []) }

/-- `hide()` (source lines 293-298), kept exactly as written: the
visual hide always happens, `emit(hide)` is unconditional, and the
pre-call visibility gates an extra `emit(show)`. -/
def hideOp (s : TSt) : TSt :=
  let shouldEmit := s.visible
  { s with
    visible := false
    display := false
    emitted := (s.emitted ++ [TooltipAction.hide])
      ++ (if shouldEmit then [TooltipAction.show_] else []) }

/-- `pin(pinState)` (source lines 333-365): set `pinned` and emit the
matching notification.  The holder-layer cloning and the document-level
listener toggling are DOM effects with no bearing on the claims. -/
def pinOp (pinState : Bool) (s : TSt) : TSt :=
  { s with
    pinned := pinState
    emitted := s.emitted
      ++ [if pinState then TooltipAction.pin else TooltipAction.unpin] }

/-- Executing the current `renderTooltipCloses` closure: the initial
closure is a no-op; a bound closure renders its rows (innerHTML and
placement) and emits `render`.  The closure itself stays in place. -/
def execPending (s : TSt) : TSt :=
  match s.pending with
  | Option.none => s
  | some rows =>
    { s with
      renders := s.renders ++ [rows]
      emitted := s.emitted ++ [TooltipAction.render] }

/-- `onMouseDown` (source lines 315-317). -/
def onMouseDownOp (x : Int) (s : TSt) : TSt :=
  { s with clickStartedX := some x }

/-- JS truthiness of `state.clickStartedX` (`null | number`): `null`
and `0` are falsy. -/
def truthyClick : Option Int → Bool
  | Option.none => false
  | some v => v != 0

/-- `onMouseUp` (source lines 367-377): with pinning enabled, a truthy
recorded down-coordinate equal to the up-coordinate toggles the pin,
shows the overlay and flushes the pending render closure. -/
def onMouseUpOp (opts : TooltipOptions) (x : Int) (s : TSt) : TSt :=
  if opts.pinable && truthyClick s.clickStartedX
      && decide (s.clickStartedX = some x) then
    execPending (showOp (pinOp (! s.pinned) s))
  else
    s

/-- `onMouseEnter` (source lines 379-381). -/
def onMouseEnterOp (s : TSt) : TSt := showOp s

/-- `onMouseLeave` (source lines 383-387). -/
def onMouseLeaveOp (s : TSt) : TSt :=
  if s.pinned then s else hideOp s

/-- `destroy` hook (source lines 564-575): listeners detached, overlay
removed, `mounted := false`, final notification.  Note that `pinned` is
left untouched. -/
def destroyOp (s : TSt) : TSt :=
  { s with
    mounted := false
    emitted := s.emitted ++ [TooltipAction.destroy] }

/-- The inputs `setCursor` reads from the uPlot instance on one cursor
update.  `top = none` models `top === undefined`; `idx = none` models a
null or undefined index; `dataNull` models `data === null`;
`cursorValue` abstracts `Number(u.posToVal(top, y).toFixed(2))`, a
pixel-to-value mapping owned by the chart engine. -/
structure UIn where
  left : Int
  top : Option Int
  idx : Option Nat
  dataNull : Bool
  inViewPort : Bool
  series : List Serie
  data : List (List Val)
  cursorValue : Int

/-- `top < 0` under JS comparison: `undefined < 0` is false. -/
def jsTopNeg : Option Int → Bool
  | Option.none => false
  | some t => decide (t < 0)

/-- The `setCursor` hook (source lines 416-563) as a state transformer.
A thrown `TypeError` from the highlight block propagates out of the
hook: mutations already performed stay, the closure is not replaced and
nothing is rendered. -/
def setCursorOp (opts : TooltipOptions) (ySettings : YagrSettings)
    (cursor : CursorOptions) (u : UIn) (s : TSt) : TSt :=
  let s1 := if (decide (u.left < 0) || jsTopNeg u.top) && ! s.pinned
    then hideOp s else s
  match u.idx, u.top with
  | some idx, some _ =>
    if u.dataNull || ! u.inViewPort then s1
    else
      let br := buildRows opts ySettings cursor u.series u.data idx
      if br.rows.isEmpty then onMouseLeaveOp s1
      else
        let s2 := onMouseEnterOp s1
        match applyHighlight opts br u.cursorValue with
        | Except.error _ => s2
        | Except.ok rows1 =>
          let rows2 := jsSortRows opts.sort rows1
          let s3 := { s2 with pending := some rows2 }
          if s3.pinned then s3 else execPending s3
  | _, _ => s1

/-- The row list a cursor update binds into `renderTooltipCloses`:
`none` when the update returns before reaching the closure assignment
(guard failure, empty row set, or highlight `TypeError`). -/
def cursorRows (opts : TooltipOptions) (ySettings : YagrSettings)
    (cursor : CursorOptions) (u : UIn) : Option (List TooltipRow) :=
  match u.idx, u.top with
  | some idx, some _ =>
    if u.dataNull || ! u.inViewPort then Option.none
    else
      let br := buildRows opts ySettings cursor u.series u.data idx
      if br.rows.isEmpty then Option.none
      else
        match applyHighlight opts br u.cursorValue with
        | Except.error _ => Option.none
        | Except.ok rows1 => some (jsSortRows opts.sort rows1)
  | _, _ => Option.none

/-- The transitions of the interaction state machine: the four overlay
pointer listeners, the `setCursor` and `destroy` hooks, and the public
`show` / `hide` / `pin` actions handed to the notification callback. -/
inductive Ev where
  | mouseDown (x : Int)
  | mouseUp (x : Int)
  | mouseEnter
  | mouseLeave
  | cursor (u : UIn)
  | callShow
  | callHide
  | callPin (b : Bool)
  | destroyEv

/-- Whether an event is the `destroy` transition. -/
def Ev.isDestroy : Ev → Bool
  | Ev.destroyEv => true
  | _ => false

/-- One transition of the interaction state machine. -/
def stepEv (opts : TooltipOptions) (ySettings : YagrSettings)
    (cursor : CursorOptions) (s : TSt) (e : Ev) : TSt :=
  match e with
  | Ev.mouseDown x => onMouseDownOp x s
  | Ev.mouseUp x => onMouseUpOp opts x s
  | Ev.mouseEnter => onMouseEnterOp s
  | Ev.mouseLeave => onMouseLeaveOp s
  | Ev.cursor u => setCursorOp opts ySettings cursor u s
  | Ev.callShow => showOp s
  | Ev.callHide => hideOp s
  | Ev.callPin b => pinOp b s
  | Ev.destroyEv => destroyOp s

/-- Run a transition sequence from the freshly constructed state. -/
def runEvents (opts : TooltipOptions) (ySettings : YagrSettings)
    (cursor : CursorOptions) (evs : List Ev) : TSt :=
  evs.foldl (stepEv opts ySettings cursor) initState

/-- `setData` hook input: a JS value that is either an array (of
values) or not. -/
inductive JsData where
  | arr (vs : List Val)
  | other (v : Val)
deriving DecidableEq, Repr

/-- Whether a `setData` element is an array (`Array.isArray`). -/
def JsData.isArr : JsData → Bool
  | JsData.arr _ => true
  | JsData.other _ => false

/-- The `setData` hook (source lines 400-404): throw unless every
element of `u.data` is an array; nothing else happens in the hook. -/
def setDataCheck (data : List JsData) : Except String Unit :=
  if data.all JsData.isArr then Except.ok ()
  else Except.error "Tooltip plugin applied to unconvient datalines: expected number[][]"

/-- Follows the words of claim C4, not the source: the data is an array
of numeric arrays. -/
def claimIsArrayOfNumericArrays (data : List JsData) : Bool :=
  data.all (fun e =>
    match e with
    | JsData.arr vs => vs.all (fun v =>
        match v with
        | Val.num _ => true
        | _ => false)
    | JsData.other _ => false)

/-- Repeated cursor updates: fold `setCursor` over a list of update
inputs. -/
def foldCursor (opts : TooltipOptions) (ySettings : YagrSettings)
    (cursor : CursorOptions) (us : List UIn) (s : TSt) : TSt :=
  us.foldl (fun st v => setCursorOp opts ySettings cursor v st) s

/-- The closure left in `renderTooltipCloses` after a sequence of
cursor updates: each update that reaches the closure assignment
overwrites it, the others leave it alone. -/
def lastPending (opts : TooltipOptions) (ySettings : YagrSettings)
    (cursor : CursorOptions) (us : List UIn)
    (p : Option (List TooltipRow)) : Option (List TooltipRow) :=
  us.foldl (fun q v =>
    match cursorRows opts ySettings cursor v with
    | some r => some r
    | Option.none => q) p

/-- Default `yagr.config.settings` (no interpolation marker set). -/
def defaultYSettings : YagrSettings := {}

/-- Default cursor configuration (`snapToValues` left unset). -/
def defaultCursor : CursorOptions := {}

/-- Concrete x series (index 0; skipped by the row loop). -/
def xSerie : Serie := { name := "x", color := "", shw := true }

/-- Concrete visible series named s1. -/
def serieS1 : Serie := { name := "s1", color := "red", shw := true }

/-- Concrete visible series named s2. -/
def serieS2 : Serie := { name := "s2", color := "blue", shw := true }

/-- Concrete visible series that opts out of tooltip display. -/
def serieOptOut : Serie :=
  { name := "out", color := "green", shw := true, showInTooltip := false }

/-- Concrete invisible series. -/
def serieHidden : Serie := { name := "h", color := "", shw := false }

/-- Options with tracking disabled (neither Sticky nor Area) and
`highlightLines` at its default `true`. -/
def trackingOffOpts : TooltipOptions := { tracking := TrackingOptions.none }

/-- A cursor update over `[xSerie, serieS2]` on plain numeric data:
every guard passes and one row is produced. -/
def goodUpd : UIn :=
  { left := 10, top := some 10, idx := some 0, dataNull := false,
    inViewPort := true, series := [xSerie, serieS2],
    data := [[Val.num 0], [Val.num 20]], cursorValue := 19 }

/-- A cursor update whose only y series is invisible: every guard
passes and the built row set is empty. -/
def emptyRowsUpd : UIn :=
  { left := 10, top := some 10, idx := some 0, dataNull := false,
    inViewPort := true, series := [xSerie, serieHidden],
    data := [[Val.num 0], [Val.num 1]], cursorValue := 0 }

/-- The row list `goodUpd` produces (one row for s2, flagged active by
Sticky selection). -/
def goodUpdRows : List TooltipRow :=
  [{ name := "s2", originalValue := Val.num 20, value := "",
     y := Val.num 20, color := "blue", active := true, normalized := none }]

/-- Pinned, visible state with a recorded click at x = 5. -/
def pinnedState : TSt :=
  { initState with pinned := true, visible := true, clickStartedX := some 5 }

/-- State with a recorded mouse-down at the leftmost pixel (x = 0). -/
def zeroClickState : TSt := { initState with clickStartedX := some 0 }

/-- Series used by the C5 witness: display source `[5]`. -/
def serieC5 : Serie :=
  { name := "a", color := "", shw := true, c := some [Val.num 5] }

/-- A `setData` payload that is an array of arrays but not an array of
numeric arrays. -/
def nonNumericData : List JsData := [JsData.arr [Val.str "a"]]

/-! Helper lemmas: which state fields each operation leaves unchanged. -/

@[simp] theorem showOp_pinned (s : TSt) : (showOp s).pinned = s.pinned := rfl

@[simp] theorem showOp_mounted (s : TSt) : (showOp s).mounted = s.mounted := rfl

@[simp] theorem showOp_renders (s : TSt) : (showOp s).renders = s.renders := rfl

@[simp] theorem showOp_pending (s : TSt) : (showOp s).pending = s.pending := rfl

@[simp] theorem showOp_clickStartedX (s : TSt) :
    (showOp s).clickStartedX = s.clickStartedX := rfl

@[simp] theorem showOp_visible (s : TSt) : (showOp s).visible = true := rfl

@[simp] theorem hideOp_pinned (s : TSt) : (hideOp s).pinned = s.pinned := rfl

@[simp] theorem hideOp_mounted (s : TSt) : (hideOp s).mounted = s.mounted := rfl

@[simp] theorem hideOp_renders (s : TSt) : (hideOp s).renders = s.renders := rfl

@[simp] theorem hideOp_pending (s : TSt) : (hideOp s).pending = s.pending := rfl

@[simp] theorem hideOp_clickStartedX (s : TSt) :
    (hideOp s).clickStartedX = s.clickStartedX := rfl

@[simp] theorem hideOp_visible (s : TSt) : (hideOp s).visible = false := rfl

@[simp] theorem pinOp_pinned (b : Bool) (s : TSt) : (pinOp b s).pinned = b := rfl

@[simp] theorem pinOp_mounted (b : Bool) (s : TSt) :
    (pinOp b s).mounted = s.mounted := rfl

@[simp] theorem pinOp_renders (b : Bool) (s : TSt) :
    (pinOp b s).renders = s.renders := rfl

@[simp] theorem pinOp_pending (b : Bool) (s : TSt) :
    (pinOp b s).pending = s.pending := rfl

@[simp] theorem pinOp_visible (b : Bool) (s : TSt) :
    (pinOp b s).visible = s.visible := rfl

@[simp] theorem pinOp_clickStartedX (b : Bool) (s : TSt) :
    (pinOp b s).clickStartedX = s.clickStartedX := rfl

@[simp] theorem execPending_pinned (s : TSt) :
    (execPending s).pinned = s.pinned := by
  unfold execPending; rcases hq : s.pending with _ | r <;> simp [hq]

@[simp] theorem execPending_mounted (s : TSt) :
    (execPending s).mounted = s.mounted := by
  unfold execPending; rcases hq : s.pending with _ | r <;> simp [hq]

@[simp] theorem execPending_pending (s : TSt) :
    (execPending s).pending = s.pending := by
  unfold execPending; rcases hq : s.pending with _ | r <;> simp [hq]

@[simp] theorem execPending_visible (s : TSt) :
    (execPending s).visible = s.visible := by
  unfold execPending; rcases hq : s.pending with _ | r <;> simp [hq]

@[simp] theorem execPending_clickStartedX (s : TSt) :
    (execPending s).clickStartedX = s.clickStartedX := by
  unfold execPending; rcases hq : s.pending with _ | r <;> simp [hq]

@[simp] theorem onMouseEnterOp_eq (s : TSt) : onMouseEnterOp s = showOp s := rfl

@[simp] theorem onMouseLeaveOp_pinned (s : TSt) :
    (onMouseLeaveOp s).pinned = s.pinned := by
  unfold onMouseLeaveOp; split <;> simp

@[simp] theorem onMouseLeaveOp_mounted (s : TSt) :
    (onMouseLeaveOp s).mounted = s.mounted := by
  unfold onMouseLeaveOp; split <;> simp

@[simp] theorem onMouseLeaveOp_renders (s : TSt) :
    (onMouseLeaveOp s).renders = s.renders := by
  unfold onMouseLeaveOp; split <;> simp

@[simp] theorem onMouseLeaveOp_pending (s : TSt) :
    (onMouseLeaveOp s).pending = s.pending := by
  unfold onMouseLeaveOp; split <;> simp

@[simp] theorem onMouseLeaveOp_clickStartedX (s : TSt) :
    (onMouseLeaveOp s).clickStartedX = s.clickStartedX := by
  unfold onMouseLeaveOp; split <;> simp

@[simp] theorem onMouseDownOp_mounted (x : Int) (s : TSt) :
    (onMouseDownOp x s).mounted = s.mounted := rfl

@[simp] theorem destroyOp_pinned (s : TSt) : (destroyOp s).pinned = s.pinned := rfl

theorem onMouseUpOp_mounted (opts : TooltipOptions) (x : Int) (s : TSt) :
    (onMouseUpOp opts x s).mounted = s.mounted := by
  unfold onMouseUpOp; split <;> simp

theorem setCursorOp_mounted (opts : TooltipOptions) (ySettings : YagrSettings)
    (cursor : CursorOptions) (u : UIn) (s : TSt) :
    (setCursorOp opts ySettings cursor u s).mounted = s.mounted := by
  unfold setCursorOp
  cases u.idx <;> cases u.top <;> dsimp only <;> (repeat' split) <;> simp

theorem setCursorOp_pinned_fields (opts : TooltipOptions)
    (ySettings : YagrSettings) (cursor : CursorOptions) (u : UIn) (s : TSt)
    (h : s.pinned = true) :
    (setCursorOp opts ySettings cursor u s).renders = s.renders ∧
    (setCursorOp opts ySettings cursor u s).pending =
      (match cursorRows opts ySettings cursor u with
       | some r => some r
       | Option.none => s.pending) ∧
    (setCursorOp opts ySettings cursor u s).pinned = true ∧
    (setCursorOp opts ySettings cursor u s).clickStartedX = s.clickStartedX := by
  unfold setCursorOp cursorRows
  refine ⟨?_, ?_, ?_, ?_⟩ <;>
    cases u.idx <;> cases u.top <;> dsimp only <;>
    (repeat' split) <;> simp_all

theorem foldCursor_pinned (opts : TooltipOptions) (ySettings : YagrSettings)
    (cursor : CursorOptions) (us : List UIn) (s : TSt) (h : s.pinned = true) :
    (foldCursor opts ySettings cursor us s).renders = s.renders ∧
    (foldCursor opts ySettings cursor us s).pinned = true ∧
    (foldCursor opts ySettings cursor us s).clickStartedX = s.clickStartedX ∧
    (foldCursor opts ySettings cursor us s).pending =
      lastPending opts ySettings cursor us s.pending := by
  induction us generalizing s with
  | nil => exact ⟨rfl, h, rfl, rfl⟩
  | cons v vs ih =>
    obtain ⟨h1, h2, h3, h4⟩ := setCursorOp_pinned_fields opts ySettings cursor v s h
    obtain ⟨g1, g2, g3, g4⟩ := ih (setCursorOp opts ySettings cursor v s) h3
    have hf : foldCursor opts ySettings cursor (v :: vs) s =
        foldCursor opts ySettings cursor vs (setCursorOp opts ySettings cursor v s) := rfl
    have hl : lastPending opts ySettings cursor (v :: vs) s.pending =
        lastPending opts ySettings cursor vs
          (match cursorRows opts ySettings cursor v with
           | some r => some r
           | Option.none => s.pending) := rfl
    refine ⟨?_, ?_, ?_, ?_⟩
    · rw [hf, g1, h1]
    · rw [hf]; exact g2
    · rw [hf, g3, h4]
    · rw [hf, g4, h2, hl]

theorem stepEv_mounted (opts : TooltipOptions) (ySettings : YagrSettings)
    (cursor : CursorOptions) (s : TSt) (e : Ev) (h : e.isDestroy = false) :
    (stepEv opts ySettings cursor s e).mounted = s.mounted := by
  cases e with
  | mouseDown x => rfl
  | mouseUp x => exact onMouseUpOp_mounted opts x s
  | mouseEnter => rfl
  | mouseLeave => simp [stepEv]
  | cursor u => exact setCursorOp_mounted opts ySettings cursor u s
  | callShow => rfl
  | callHide => rfl
  | callPin b => rfl
  | destroyEv => simp [Ev.isDestroy] at h

theorem foldEv_mounted (opts : TooltipOptions) (ySettings : YagrSettings)
    (cursor : CursorOptions) (evs : List Ev) (s : TSt)
    (h : evs.all (fun e => ! e.isDestroy) = true) :
    (evs.foldl (stepEv opts ySettings cursor) s).mounted = s.mounted := by
  induction evs generalizing s with
  | nil => rfl
  | cons e rest ih =>
    simp only [List.all_cons, Bool.and_eq_true, Bool.not_eq_true'] at h
    have he := stepEv_mounted opts ySettings cursor s e h.1
    have := ih (stepEv opts ySettings cursor s e) (by
      simpa [List.all_eq_true] using h.2)
    simpa [List.foldl_cons, this] using he

theorem buildLoop_lengths (opts : TooltipOptions) (iv : Val)
    (cursor : CursorOptions) (idx : Nat) (pairs : List (Serie × List Val))
    (acc : BuildRes) (h : acc.rows.length = acc.rowYs.length) :
    ((buildLoop opts iv cursor idx pairs acc).rows.length =
      (buildLoop opts iv cursor idx pairs acc).rowYs.length) ∧
    ((buildLoop opts iv cursor idx pairs acc).ys.length =
      acc.ys.length + (pairs.filter (fun p => p.1.shw)).length) := by
  induction pairs generalizing acc with
  | nil => exact ⟨h, by simp [buildLoop]⟩
  | cons p rest ih =>
    obtain ⟨serie, dataRow⟩ := p
    unfold buildLoop
    dsimp only
    cases hs : serie.shw with
    | false =>
      rw [if_pos (by simp)]
      refine ⟨(ih _ (by exact h)).1, ((ih _ (by exact h)).2).trans ?_⟩
      simp [List.filter_cons, hs]
    | true =>
      rw [if_neg (by simp)]
      split
      · refine ⟨(ih _ (by exact h)).1, ((ih _ (by exact h)).2).trans ?_⟩
        simp [List.filter_cons, hs]
        try omega
      · refine ⟨(ih _ (by simp [h])).1, ((ih _ (by simp [h])).2).trans ?_⟩
        simp [List.filter_cons, hs]
        try omega

/-! Claim theorems. -/

/-- C1: the claim says `hide()` emits a notification only on the visible
true-to-false edge, so two consecutive calls emit exactly one
notification tagged `hide`.  Evaluating the code at that input: the
visual hide side effect is performed (display off, visible false), but
`emit(hide)` runs unconditionally on both calls and the gated branch of
the first call emits `show`, producing the tag sequence
hide, show, hide instead of a single hide. -/
theorem c1_hide_double_emission :
    (hideOp (hideOp (showOp initState))).emitted =
      [TooltipAction.init, TooltipAction.mount, TooltipAction.show_,
       TooltipAction.hide, TooltipAction.show_, TooltipAction.hide] ∧
    (hideOp (showOp initState)).visible = false ∧
    (hideOp (showOp initState)).display = false ∧
    (hideOp (hideOp (showOp initState))).visible = false :=
  ⟨rfl, rfl, rfl, rfl⟩

/-- C2 counterexample: the claim says pinned implies mounted in every
reachable state.  The transition sequence mouse-down at 5, mouse-up at
5 (a pin-toggling click), then destroy reaches a state with
pinned = true and mounted = false, because `destroy` leaves `pinned`
untouched. -/
theorem c2_pin_survives_destroy_cex :
    (runEvents defaultOpts defaultYSettings defaultCursor
      [Ev.mouseDown 5, Ev.mouseUp 5, Ev.destroyEv]).pinned = true ∧
    (runEvents defaultOpts defaultYSettings defaultCursor
      [Ev.mouseDown 5, Ev.mouseUp 5, Ev.destroyEv]).mounted = false :=
  ⟨rfl, rfl⟩

/-- C2 amended: in every state reachable without a destroy transition,
pinned = true implies mounted = true (indeed `mounted` stays true); the
destroy transition itself leaves `pinned` unchanged, so destroying
while pinned leaves pinned = true with mounted = false. -/
theorem c2_pinned_only_while_mounted_amended (opts : TooltipOptions)
    (ySettings : YagrSettings) (cursor : CursorOptions) (evs : List Ev)
    (s : TSt) (h : evs.all (fun e => ! e.isDestroy) = true) :
    ((runEvents opts ySettings cursor evs).pinned = true →
      (runEvents opts ySettings cursor evs).mounted = true) ∧
    (stepEv opts ySettings cursor s Ev.destroyEv).pinned = s.pinned := by
  constructor
  · intro _
    exact foldEv_mounted opts ySettings cursor evs initState h
  · rfl

theorem c2_pinned_only_while_mounted_amended_witness :
    (runEvents defaultOpts defaultYSettings defaultCursor
      [Ev.callPin true]).pinned = true ∧
    (runEvents defaultOpts defaultYSettings defaultCursor
      [Ev.callPin true]).mounted = true ∧
    (stepEv defaultOpts defaultYSettings defaultCursor initState
      Ev.destroyEv).pinned = initState.pinned := by
  have h := c2_pinned_only_while_mounted_amended defaultOpts defaultYSettings
    defaultCursor [Ev.callPin true] initState rfl
  exact ⟨rfl, h.1 rfl, h.2⟩

/-- C3: the claim says that with tracking disabled (neither Sticky nor
Area) no row gets the active flag.  Evaluating the code at a minimal
failing input (default `highlightLines = true`, two series, one emitted
row): the initializer `activeIndex = i - 1` survives, `i - 1 = 1` is
past the end of the one-row list, and the write
`rows[activeIndex].active = true` is a property write through
`undefined`, a thrown TypeError rather than a no-selection outcome. -/
theorem c3_tracking_disabled_throws :
    (buildRows trackingOffOpts defaultYSettings defaultCursor
      [xSerie, serieS1] [[Val.num 0], [Val.num 10]] 0).rows.length = 1 ∧
    (buildRows trackingOffOpts defaultYSettings defaultCursor
      [xSerie, serieS1] [[Val.num 0], [Val.num 10]] 0).i = 2 ∧
    applyHighlight trackingOffOpts
      (buildRows trackingOffOpts defaultYSettings defaultCursor
        [xSerie, serieS1] [[Val.num 0], [Val.num 10]] 0) 10 =
      Except.error "TypeError: cannot set properties of undefined" :=
  ⟨rfl, rfl, rfl⟩

/-- C4 counterexample: the claim says any shape other than an array of
numeric arrays raises a fatal error, including an array whose elements
are arrays of non-numbers.  The payload `[["a"]]` is not an array of
numeric arrays, yet `setData` accepts it: the hook only checks
`Array.isArray` on each element. -/
theorem c4_nonnumeric_rows_accepted_cex :
    claimIsArrayOfNumericArrays nonNumericData = false ∧
    setDataCheck nonNumericData = Except.ok () :=
  ⟨rfl, rfl⟩

/-- C4 amended: `setData` raises the fatal error exactly when some
top-level element of the data is not an array; element contents are
never inspected, so arrays of non-numeric values are accepted.  The
hook performs nothing besides this check, so the error is raised before
any render and without partial operation. -/
theorem c4_setdata_rejects_exactly_nonarrays (data : List JsData) :
    setDataCheck data =
      Except.error
        "Tooltip plugin applied to unconvient datalines: expected number[][]" ↔
    ∃ x ∈ data, x.isArr = false := by
  unfold setDataCheck
  cases hall : data.all JsData.isArr with
  | true =>
    simp only [if_true]
    rw [List.all_eq_true] at hall
    constructor
    · intro hcontra
      exact absurd hcontra (by simp)
    · rintro ⟨x, hx, hfalse⟩
      exact absurd (hall x hx) (by simp [hfalse])
  | false =>
    simp only [Bool.false_eq_true, if_false]
    rw [List.all_eq_false] at hall
    constructor
    · intro _
      obtain ⟨x, hx, hnp⟩ := hall
      exact ⟨x, hx, by simpa using hnp⟩
    · intro _
      exact trivial

/-- C5: the value resolver reads from the declared display-source array
when one is present (otherwise the plotted array), and when the value
at the target index is not the (defaulted) gap marker it returns that
value unchanged.  The embedding is pure, so the input arrays are never
mutated. -/
theorem c5_resolver_returns_nongap (cursor : CursorOptions)
    (data : List Val) (serie : Serie) (idx : Nat) (stripArg : Val)
    (h : (displaySource serie data).getD idx Val.undef ≠ jsDefaultStrip stripArg) :
    findValue cursor data serie idx stripArg =
      (displaySource serie data).getD idx Val.undef := by
  unfold findValue
  dsimp only
  rw [if_neg h]

theorem c5_resolver_returns_nongap_witness :
    (displaySource serieC5 []).getD 0 Val.undef ≠ jsDefaultStrip Val.null ∧
    findValue defaultCursor [] serieC5 0 Val.null = Val.num 5 := by
  have h : (displaySource serieC5 []).getD 0 Val.undef ≠ jsDefaultStrip Val.null := by
    decide
  exact ⟨h, (c5_resolver_returns_nongap defaultCursor [] serieC5 0 Val.null h).trans rfl⟩

/-- C6 counterexample: the claim says an empty built row set makes the
state machine transition to `hide()`.  In a pinned, visible state a
guard-passing update whose row set is empty (its only y series is
invisible) leaves `visible` at true and emits nothing: the empty-row
path goes through the mouse-leave handler, whose `!state.pinned` guard
blocks `hide()`.  No render occurs either way. -/
theorem c6_pinned_empty_rows_no_hide_cex :
    (setCursorOp defaultOpts defaultYSettings defaultCursor
      emptyRowsUpd pinnedState).visible = true ∧
    (setCursorOp defaultOpts defaultYSettings defaultCursor
      emptyRowsUpd pinnedState).emitted = pinnedState.emitted ∧
    (setCursorOp defaultOpts defaultYSettings defaultCursor
      emptyRowsUpd pinnedState).renders = [] :=
  ⟨rfl, rfl, rfl⟩

/-- C6 amended: a guard-passing cursor update (in-bounds coordinates,
data and index present, chart in viewport) whose built row set is empty
runs the mouse-leave handler: `hide()` fires only when not pinned
(visible becomes `pinned && visible`), and in either case no render
occurs and the pending render closure is not replaced. -/
theorem c6_empty_rows_hides_unless_pinned (opts : TooltipOptions)
    (ySettings : YagrSettings) (cursor : CursorOptions) (u : UIn) (s : TSt)
    (i : Nat) (t : Int)
    (hidx : u.idx = some i) (htop : u.top = some t)
    (hl : 0 ≤ u.left) (ht : 0 ≤ t)
    (hdata : u.dataNull = false) (hvp : u.inViewPort = true)
    (hrows : (buildRows opts ySettings cursor u.series u.data i).rows = []) :
    (setCursorOp opts ySettings cursor u s).renders = s.renders ∧
    (setCursorOp opts ySettings cursor u s).pending = s.pending ∧
    (setCursorOp opts ySettings cursor u s).visible = (s.pinned && s.visible) ∧
    (setCursorOp opts ySettings cursor u s).pinned = s.pinned := by
  have h1 : decide (u.left < 0) = false := by
    simp only [decide_eq_false_iff_not]
    omega
  have h2 : jsTopNeg (some t) = false := by
    unfold jsTopNeg
    simp only [decide_eq_false_iff_not]
    omega
  unfold setCursorOp
  rw [hidx, htop]
  dsimp only
  rw [h1, h2, hdata, hvp, hrows]
  simp
  unfold onMouseLeaveOp
  cases hp : s.pinned <;> simp [hp]

theorem c6_empty_rows_hides_unless_pinned_witness :
    (setCursorOp defaultOpts defaultYSettings defaultCursor emptyRowsUpd
      (showOp initState)).visible = false ∧
    (setCursorOp defaultOpts defaultYSettings defaultCursor emptyRowsUpd
      (showOp initState)).renders = [] := by
  have h := c6_empty_rows_hides_unless_pinned defaultOpts defaultYSettings
    defaultCursor emptyRowsUpd (showOp initState) 0 10 rfl rfl (by decide)
    (by decide) rfl rfl rfl
  exact ⟨h.2.2.1.trans rfl, h.1.trans rfl⟩

/-- C7: while pinned, no cursor update renders; every update that
reaches the closure assignment overwrites the single pending closure
with one bound to its row set, and the pin-toggle flush in the mouse-up
handler executes exactly the current (latest) closure.  For any pinned
period consisting of updates `us` followed by a final update `u` that
produces row set `r`, the render log is untouched during the period,
the pending closure ends bound to `r`, and the toggling click appends
exactly `[r]` to the render log. -/
theorem c7_pinned_defers_and_flushes (opts : TooltipOptions)
    (ySettings : YagrSettings) (cursor : CursorOptions) (s : TSt)
    (us : List UIn) (u : UIn) (x : Int) (r : List TooltipRow)
    (hp : s.pinned = true) (hpin : opts.pinable = true)
    (hc : s.clickStartedX = some x) (hx : x ≠ 0)
    (hr : cursorRows opts ySettings cursor u = some r) :
    (foldCursor opts ySettings cursor (us ++ [u]) s).renders = s.renders ∧
    (foldCursor opts ySettings cursor (us ++ [u]) s).pending = some r ∧
    (onMouseUpOp opts x
      (foldCursor opts ySettings cursor (us ++ [u]) s)).renders =
      s.renders ++ [r] ∧
    (onMouseUpOp opts x
      (foldCursor opts ySettings cursor (us ++ [u]) s)).pinned = false := by
  obtain ⟨hren, hpin2, hclick, hpend⟩ :=
    foldCursor_pinned opts ySettings cursor (us ++ [u]) s hp
  have hlast : lastPending opts ySettings cursor (us ++ [u]) s.pending = some r := by
    unfold lastPending
    rw [List.foldl_append]
    simp [hr]
  rw [hlast] at hpend
  have hcond : (opts.pinable
      && truthyClick (foldCursor opts ySettings cursor (us ++ [u]) s).clickStartedX
      && decide ((foldCursor opts ySettings cursor (us ++ [u]) s).clickStartedX
        = some x)) = true := by
    rw [hclick, hc, hpin]
    unfold truthyClick
    simp [hx]
  have hup : onMouseUpOp opts x (foldCursor opts ySettings cursor (us ++ [u]) s) =
      execPending (showOp (pinOp
        (! (foldCursor opts ySettings cursor (us ++ [u]) s).pinned)
        (foldCursor opts ySettings cursor (us ++ [u]) s))) := by
    unfold onMouseUpOp
    rw [hcond]
    simp
  have hpend2 : (showOp (pinOp
      (! (foldCursor opts ySettings cursor (us ++ [u]) s).pinned)
      (foldCursor opts ySettings cursor (us ++ [u]) s))).pending = some r := by
    simp [hpend]
  refine ⟨hren, hpend, ?_, ?_⟩
  · rw [hup]
    unfold execPending
    rw [hpend2]
    simp [hren]
  · rw [hup]
    unfold execPending
    rw [hpend2]
    simp [hpin2]

theorem c7_pinned_defers_and_flushes_witness :
    (foldCursor defaultOpts defaultYSettings defaultCursor
      ([goodUpd] ++ [goodUpd]) pinnedState).renders = pinnedState.renders ∧
    (onMouseUpOp defaultOpts 5
      (foldCursor defaultOpts defaultYSettings defaultCursor
        ([goodUpd] ++ [goodUpd]) pinnedState)).renders =
      pinnedState.renders ++ [goodUpdRows] := by
  have h := c7_pinned_defers_and_flushes defaultOpts defaultYSettings
    defaultCursor pinnedState [goodUpd] goodUpd 5 goodUpdRows rfl rfl rfl
    (by decide) rfl
  exact ⟨h.1, h.2.2.1⟩

/-- C8: `show()` sets visible to true; a `show` notification is emitted
exactly on the false-to-true edge, and a call while already visible
re-emits nothing. -/
theorem c8_show_edge_only (s : TSt) :
    (showOp s).visible = true ∧
    (s.visible = true → (showOp s).emitted = s.emitted) ∧
    (s.visible = false → (showOp s).emitted = s.emitted ++ [TooltipAction.show_]) := by
  refine ⟨rfl, ?_, ?_⟩ <;> intro h <;> simp [showOp, h]

theorem c8_show_edge_only_witness :
    (showOp initState).visible = true ∧
    (showOp (showOp initState)).emitted = (showOp initState).emitted := by
  refine ⟨(c8_show_edge_only initState).1, ?_⟩
  exact (c8_show_edge_only (showOp initState)).2.1 (c8_show_edge_only initState).1

/-- C9 counterexample: the claim says a visible series skipped from
emission still contributes its y-equivalent to the bookkeeping sequence
that the active-series selection is applied to.  The selection
(`applyHighlight`, source lines 508-520) is applied to `rowYs`, which
receives entries only for emitted rows: with a visible opted-out series
(y 10) and an emitted series (y 20), the selection input is `[20]` and
the skipped y-equivalent 10 appears only in the never-consulted `ys`
list. -/
theorem c9_selection_input_excludes_skipped_cex :
    (buildRows defaultOpts defaultYSettings defaultCursor
      [xSerie, serieOptOut, serieS2]
      [[Val.num 0], [Val.num 10], [Val.num 20]] 0).ys =
      [Val.num 10, Val.num 20] ∧
    (buildRows defaultOpts defaultYSettings defaultCursor
      [xSerie, serieOptOut, serieS2]
      [[Val.num 0], [Val.num 10], [Val.num 20]] 0).rowYs = [Val.num 20] ∧
    Val.num 10 ∉ (buildRows defaultOpts defaultYSettings defaultCursor
      [xSerie, serieOptOut, serieS2]
      [[Val.num 0], [Val.num 10], [Val.num 20]] 0).rowYs := by
  refine ⟨rfl, rfl, ?_⟩
  intro hmem
  rw [show (buildRows defaultOpts defaultYSettings defaultCursor
      [xSerie, serieOptOut, serieS2]
      [[Val.num 0], [Val.num 10], [Val.num 20]] 0).rowYs = [Val.num 20]
    from rfl] at hmem
  simp at hmem

/-- C9 amended: a visible series skipped from emission contributes its
y-equivalent only to the `ys` bookkeeping list (one entry per visible
series), which no later step consults; the active-series selection is
applied to `rowYs`, which receives exactly one entry per emitted row. -/
theorem c9_bookkeeping_amended (opts : TooltipOptions)
    (ySettings : YagrSettings) (cursor : CursorOptions) (series : List Serie)
    (data : List (List Val)) (idx : Nat) :
    (buildRows opts ySettings cursor series data idx).rows.length =
      (buildRows opts ySettings cursor series data idx).rowYs.length ∧
    (buildRows opts ySettings cursor series data idx).ys.length =
      (((series.drop 1).zip (data.drop 1)).filter (fun p => p.1.shw)).length := by
  have h := buildLoop_lengths opts ySettings.interpolationValue cursor idx
    ((series.drop 1).zip (data.drop 1)) ⟨[], [], [], 0, 1⟩ rfl
  refine ⟨h.1, ?_⟩
  have h2 := h.2
  simp only [List.length_nil, Nat.zero_add] at h2
  exact h2

/-- C10: with pinning enabled, a recorded mouse-down at horizontal
coordinate 0 can never toggle the pin on mouse-up: JS truthiness treats
the stored 0 like a missing click, so `onMouseUp` leaves the whole
state unchanged for every up-coordinate, including a genuine click at
x = 0. -/
theorem c10_zero_click_never_toggles (opts : TooltipOptions) (x : Int)
    (s : TSt) (h : s.clickStartedX = some 0) :
    onMouseUpOp opts x s = s := by
  unfold onMouseUpOp
  rw [h]
  simp [truthyClick]

theorem c10_zero_click_never_toggles_witness :
    onMouseUpOp defaultOpts 0 zeroClickState = zeroClickState ∧
    (onMouseUpOp defaultOpts 0 zeroClickState).pinned = false := by
  have h := c10_zero_click_never_toggles defaultOpts 0 zeroClickState rfl
  exact ⟨h, by rw [h]; rfl⟩
